import Mathlib

/-!
Verification of the SmartisanOS wallpaper downloader
(`src/wallpaper_downloader.py`) against its specification.

The Python program is shallowly embedded: each method of
`WallpaperDownloaderApp` that mutates session state or produces
user-visible output becomes a pure Lean function over an explicit
state, with network and filesystem effects supplied as oracles.
-/

namespace Wallpaper

/-- A wallpaper record as parsed from the JSON `data` array.  Python
dictionaries are accessed with `.get(...)`, so every field is optional;
`none` models an absent key.  Mirrors the element shape used at
`wallpaper_downloader.py` lines 216-220, 231, 285-286. -/
structure Record where
  id : Option String
  author : Option String
  desc : Option String
  url : Option String
deriving Repr, DecidableEq

/-- Python truthiness for an optional string: `None` and `""` are falsy,
every other string is truthy.  Used by `if url:` (line 232) and
`if url and wallpaper_id:` (line 288). -/
def truthy : Option String → Bool
  | none => false
  | some s => s ≠ ""

/-- The mutable session state of `WallpaperDownloaderApp`:
`self.current_page`, `self.wallpaper_data`, `self.download_path`
(lines 55-58), and the source selected in `self.sort_combo`. -/
structure AppState where
  current_page : Nat
  wallpaper_data : List Record
  download_path : String
  source : String
deriving Repr, DecidableEq

/-- Method `change_page` (lines 156-167).  Returns the new state together with
the warning message of the `QMessageBox.warning` call, if one fired.
The Python argument is an `int` (callers pass `self.current_page - 1`),
hence `Int`. -/
def change_page (s : AppState) (new_page : Int) : AppState × Option String :=
  if new_page < 0 then
    (s, some "已经是第一页了！")
  else if new_page * 3 ≥ (s.wallpaper_data.length : Int) ∧ s.wallpaper_data.length > 0 then
    (s, some "没有更多壁纸了！")
  else
    ({ s with current_page := new_page.toNat }, none)

/-- The JSON envelope returned by the listing endpoint, after a
successful decode: `code`, optional `msg`, optional `data` array
(`data.get("code")`, `"data" in data`, `data.get("msg", ...)`,
lines 178-182). -/
structure Envelope where
  code : Option Int
  msg : Option String
  data : Option (List Record)
deriving Repr, DecidableEq

/-- Outcome of the blocking `requests.get` + `response.json()` of
`load_wallpapers` (lines 174-176): a transport/HTTP failure
(`requests.exceptions.RequestException`, including `raise_for_status`),
an invalid JSON body (`json.JSONDecodeError`), or a decoded envelope. -/
inductive ApiResponse where
  | transportError (msg : String)
  | invalidJson
  | json (env : Envelope)
deriving Repr, DecidableEq

/-- The success condition of `load_wallpapers` line 178:
`data.get("code") == 0 and "data" in data`. -/
def envelopeOk (env : Envelope) : Bool :=
  env.code = some 0 && env.data.isSome

/-- Method `load_wallpapers` (lines 169-193) as a state transformer over the
fetch outcome.  Returns the new state and the text of the
`QMessageBox.critical` notification, if one was shown.  On success the
`data` array is assigned to `self.wallpaper_data` verbatim (line 179);
on each error path `self.wallpaper_data` is set to `[]` and a blocking
critical dialog is shown (lines 181-193).  `current_page` is never
touched. -/
def load_wallpapers (s : AppState) (resp : ApiResponse) : AppState × Option String :=
  match resp with
  | .json env =>
    if envelopeOk env then
      ({ s with wallpaper_data := env.data.getD [] }, none)
    else
      ({ s with wallpaper_data := [] },
        some ("API返回错误: " ++ env.msg.getD "未知错误"))
  | .transportError e =>
      ({ s with wallpaper_data := [] },
        some ("无法连接到壁纸API: " ++ e))
  | .invalidJson =>
      ({ s with wallpaper_data := [] },
        some "API返回了无效的JSON数据。")

/-- Method `sort_changed` (lines 152-154): reset `self.current_page` to `0`,
then run `load_wallpapers` (whose fetch outcome is the oracle `resp`). -/
def sort_changed (s : AppState) (resp : ApiResponse) : AppState × Option String :=
  load_wallpapers { s with current_page := 0 } resp

/-- Method `choose_download_path` (lines 267-271): the dialog result is a
string, empty on cancel (`if new_path:`). -/
def choose_download_path (s : AppState) (new_path : String) : AppState :=
  if new_path ≠ "" then { s with download_path := new_path } else s

/-- Display state of one of the three `pic_labels` slots after
`update_ui` / a fetch completion. -/
inductive SlotView where
  | loading (url : String)
  | loaded
  | noData
  | invalidUrl
  | noWallpaper
  | failed (text : String)
deriving Repr, DecidableEq

/-- What `update_ui` (lines 195-242) leaves in slot `i`:
`"无数据"` when clearing or when the listing is empty (lines 203-210);
otherwise, with `data_index = current_page * 3 + i`, a started fetch
when the record exists and its `url` is truthy (lines 230-238),
`"URL无效"` when the record exists but its `url` is falsy (line 240),
and `"无壁纸"` when `data_index` is past the end (line 242). -/
def update_ui_slot (data : List Record) (page : Nat) (clear : Bool) (i : Nat) : SlotView :=
  if clear || data.isEmpty then .noData
  else
    match data[page * 3 + i]? with
    | none => .noWallpaper
    | some w => if truthy w.url then .loading (w.url.getD "") else .invalidUrl

/-- The three slots rendered by `update_ui` (loop at line 228). -/
def update_ui (data : List Record) (page : Nat) (clear : Bool) : List SlotView :=
  (List.range 3).map (update_ui_slot data page clear)

/-- The records of the currently rendered page window: the loop of
`update_ui` (lines 228-230) visits `data_index = current_page * 3 + i`
for `i ∈ {0,1,2}` and renders a record exactly when
`data_index < len(self.wallpaper_data)`. -/
def currentWindow (data : List Record) (page : Nat) : List Record :=
  (List.range 3).filterMap (fun i => data[page * 3 + i]?)

/-- The metadata labels set by `update_ui` for the first record of the
window (lines 215-220): name/author/description with `N/A`
placeholders for missing keys, `none` when the window start is past the
end of the listing (lines 221-225 leave them blank). -/
def metadataView (data : List Record) (page : Nat) : Option (String × String × String) :=
  match data[page * 3]? with
  | some w => some (w.id.getD "N/A", w.author.getD "N/A", w.desc.getD "N/A")
  | none => none

/-- Method `image_error` (lines 256-265): writes the failure text into
`self.pic_labels[index]` when the index is in range and touches nothing
else of the session state (thread-list bookkeeping aside).  The label
text is `f"加载失败: {error_message[:20]}..."`. -/
def image_error (labels : List SlotView) (s : AppState) (index : Nat) (msg : String) :
    List SlotView × AppState :=
  if index < labels.length then
    (labels.set index (.failed ("加载失败: " ++ msg.take 20 ++ "...")), s)
  else
    (labels, s)

/-- Outcome of a blocking `requests.get(url, timeout=20)` together with
`raise_for_status` in `start_download` (lines 291-292): either the
response body bytes or a `requests.exceptions.RequestException`. -/
abbrev FetchOracle := String → Except String (List Nat)

/-- The filesystem as observed through `List.lookup`: the head-most
entry for a name is the current content of that file. -/
abbrev Fs := List (String × List Nat)

/-- The download target of `start_download` (line 289):
`os.path.join(self.download_path, f"{wallpaper_id}.jpg")`. -/
def targetFile (path : String) (w : Record) : String :=
  path ++ "/" ++ w.id.getD "" ++ ".jpg"

/-- One iteration of the download loop of `start_download`
(lines 281-297) at slot `i`, threading (filesystem, success count).
A missing record (index past the end, line 283) or a falsy `url`/`id`
(line 288) is skipped; a fetch failure is caught, logged and skipped
(lines 296-297); a filesystem write failure (`OSError` from
`open`/`write`, lines 293-294) is NOT caught by the
`except requests.exceptions.RequestException` handler and propagates,
modelled as `Except.error`. -/
def downloadOne (path : String) (fetch : FetchOracle) (writeOk : String → Bool)
    (data : List Record) (start i : Nat) (acc : Fs × Nat) : Except String (Fs × Nat) :=
  match data[start + i]? with
  | none => .ok acc
  | some w =>
    if truthy w.url && truthy w.id then
      let filename := targetFile path w
      match fetch (w.url.getD "") with
      | .error _ => .ok acc
      | .ok content =>
        if writeOk filename then .ok ((filename, content) :: acc.1, acc.2 + 1)
        else .error ("OSError: " ++ filename)
    else .ok acc

/-- The final `QMessageBox` of `start_download`: the early warning for
an empty listing (line 275), the success dialog when `download_count > 0`
(line 300), or the failure warning (line 302). -/
inductive DlMsg where
  | noData
  | success (count : Nat) (path : String)
  | failure
deriving Repr, DecidableEq

/-- Method `start_download` (lines 273-302): guard on an empty listing, then
the three-slot loop, then the zero/nonzero report.  An uncaught write
exception surfaces as `Except.error`. -/
def start_download (s : AppState) (fetch : FetchOracle) (writeOk : String → Bool)
    (fs : Fs) : Except String (Fs × Nat × DlMsg) :=
  if s.wallpaper_data.isEmpty then .ok (fs, 0, .noData)
  else do
    let start := s.current_page * 3
    let acc ← (List.range 3).foldlM
      (fun acc i => downloadOne s.download_path fetch writeOk s.wallpaper_data start i acc)
      (fs, 0)
    pure (acc.1, acc.2, if acc.2 > 0 then .success acc.2 s.download_path else .failure)

/-- The user events that drive the session state: page navigation
(`first/prev/next` buttons, all through `change_page`), a source change
(combo signal: the new text, then `sort_changed` whose refetch outcome
is `resp`), and the download-directory picker.  `start_download` and
the thumbnail callbacks never modify `AppState`. -/
inductive Event where
  | changePage (n : Int)
  | sortChanged (src : String) (resp : ApiResponse)
  | choosePath (p : String)

/-- One step of the session-state transition system. -/
def step (s : AppState) (e : Event) : AppState :=
  match e with
  | .changePage n => (change_page s n).1
  | .sortChanged src resp => (sort_changed { s with source := src } resp).1
  | .choosePath p => choose_download_path s p

/-- The state after `__init__` (lines 55-62): page 0, empty listing,
default download path, first combo source, then one `load_wallpapers`
with fetch outcome `resp`. -/
def initState (path src : String) (resp : ApiResponse) : AppState :=
  (load_wallpapers ⟨0, [], path, src⟩ resp).1

/-- The session states reachable in the program: an initial state
followed by any sequence of user events. -/
inductive Reachable : AppState → Prop where
  | init : ∀ path src resp, Reachable (initState path src resp)
  | step : ∀ s e, Reachable s → Reachable (step s e)

/-- The page-window invariant of the spec: when the listing is
non-empty, the window start `current_page * 3` lies inside it. -/
def pageInv (s : AppState) : Prop :=
  s.wallpaper_data ≠ [] → s.current_page * 3 < s.wallpaper_data.length

/-- Whether a fetch outcome takes one of the three error branches of
`load_wallpapers` (lines 181-193). -/
def respFailed : ApiResponse → Bool
  | .json env => !envelopeOk env
  | .transportError _ => true
  | .invalidJson => true

/- ### Helper lemmas -/

lemma filterMap_getElem_range (data : List Record) (s : Nat) (n : Nat) :
    (List.range n).filterMap (fun i => data[s + i]?) = (data.drop s).take n := by
  induction n with
  | zero => simp
  | succ k ih =>
    rw [List.range_succ, List.filterMap_append, ih, List.take_succ, List.getElem?_drop]
    cases h : data[s + k]? <;> simp [h]

lemma currentWindow_eq_drop_take (data : List Record) (page : Nat) :
    currentWindow data page = (data.drop (page * 3)).take 3 :=
  filterMap_getElem_range data (page * 3) 3

lemma currentWindow_length (data : List Record) (page : Nat) :
    (currentWindow data page).length = min 3 (data.length - page * 3) := by
  rw [currentWindow_eq_drop_take]
  simp [List.length_take, List.length_drop, Nat.min_comm]

/-- Whether a fetch of `u` would succeed. -/
def fetchOk (fetch : FetchOracle) (u : String) : Bool :=
  match fetch u with
  | .ok _ => true
  | .error _ => false

/-- Whether loop iteration `i` of `start_download` increments
`download_count` (line 295): the record exists, its `url` and `id` are
truthy, and its fetch succeeds. -/
def slotHit (data : List Record) (start : Nat) (fetch : FetchOracle) (i : Nat) : Bool :=
  match data[start + i]? with
  | none => false
  | some w => (truthy w.url && truthy w.id) && fetchOk fetch (w.url.getD "")

/-- The number of successful writes the download loop performs when no
write fails: the number of hit slots among the three. -/
def successCount (data : List Record) (start : Nat) (fetch : FetchOracle) : Nat :=
  ((List.range 3).filter (slotHit data start fetch)).length

lemma exceptBind_ok {α β : Type} (a : α) (f : α → Except String β) :
    (Except.ok a : Except String α) >>= f = f a := rfl

lemma downloadOne_hit (path : String) (fetch : FetchOracle) (writeOk : String → Bool)
    (data : List Record) (start i : Nat) (acc : Fs × Nat) (w : Record) (b : List Nat)
    (hg : data[start + i]? = some w)
    (ht : truthy w.url = true) (hti : truthy w.id = true)
    (hf : fetch (w.url.getD "") = .ok b)
    (hwr : writeOk (targetFile path w) = true) :
    downloadOne path fetch writeOk data start i acc =
      .ok ((targetFile path w, b) :: acc.1, acc.2 + 1) := by
  unfold downloadOne
  rw [hg]
  simp [ht, hti, hf, hwr]

lemma downloadOne_completes (path : String) (fetch : FetchOracle) (writeOk : String → Bool)
    (data : List Record) (start i : Nat) (acc : Fs × Nat)
    (hw : ∀ f, writeOk f = true) :
    ∃ g, downloadOne path fetch writeOk data start i acc =
      .ok (g, acc.2 + if slotHit data start fetch i then 1 else 0) := by
  cases hg : data[start + i]? with
  | none =>
    have hs : slotHit data start fetch i = false := by simp [slotHit, hg]
    refine ⟨acc.1, ?_⟩
    unfold downloadOne
    rw [hg, hs]
    simp
  | some w =>
    by_cases ht : (truthy w.url && truthy w.id) = true
    · cases hf : fetch (w.url.getD "") with
      | error e =>
        have hs : slotHit data start fetch i = false := by
          simp [slotHit, hg, hf, fetchOk]
        refine ⟨acc.1, ?_⟩
        unfold downloadOne
        rw [hg, hs]
        simp [ht, hf]
      | ok b =>
        have hs : slotHit data start fetch i = true := by
          simp [slotHit, hg, ht, hf, fetchOk]
        refine ⟨(targetFile path w, b) :: acc.1, ?_⟩
        unfold downloadOne
        rw [hg, hs]
        simp [ht, hf, hw]
    · have ht' : (truthy w.url && truthy w.id) = false := by
        simpa using ht
      have hs : slotHit data start fetch i = false := by
        simp [slotHit, hg, ht', Bool.false_and]
      refine ⟨acc.1, ?_⟩
      unfold downloadOne
      rw [hg, hs]
      simp [ht']

lemma successCount_eq (data : List Record) (start : Nat) (fetch : FetchOracle) :
    successCount data start fetch =
      (if slotHit data start fetch 0 then 1 else 0) +
      (if slotHit data start fetch 1 then 1 else 0) +
      (if slotHit data start fetch 2 then 1 else 0) := by
  unfold successCount
  rw [show List.range 3 = [0, 1, 2] from rfl]
  cases h0 : slotHit data start fetch 0 <;> cases h1 : slotHit data start fetch 1 <;>
    cases h2 : slotHit data start fetch 2 <;> simp [List.filter, h0, h1, h2]

lemma pageInv_load_wallpapers (s : AppState) (resp : ApiResponse)
    (h0 : s.current_page = 0) : pageInv (load_wallpapers s resp).1 := by
  cases resp with
  | transportError e => intro hne; simp [load_wallpapers] at hne
  | invalidJson => intro hne; simp [load_wallpapers] at hne
  | json env =>
    by_cases hko : envelopeOk env = true
    · intro hne
      simp only [load_wallpapers, hko, if_true] at hne ⊢
      rw [h0]
      simpa using List.length_pos.mpr hne
    · intro hne
      simp [load_wallpapers, hko] at hne

lemma pageInv_step (s : AppState) (e : Event) (h : pageInv s) : pageInv (step s e) := by
  cases e with
  | changePage n =>
    show pageInv (change_page s n).1
    unfold change_page
    split
    · exact h
    · split
      · exact h
      · next h1 h2 =>
        intro hne
        have hlen : 0 < s.wallpaper_data.length := List.length_pos.mpr hne
        show n.toNat * 3 < s.wallpaper_data.length
        rcases Decidable.not_and_iff_or_not.mp h2 with hh | hh <;> omega
  | sortChanged src resp => exact pageInv_load_wallpapers _ resp rfl
  | choosePath p =>
    show pageInv (choose_download_path s p)
    unfold choose_download_path
    split
    · exact h
    · exact h

/- ### Claims -/

/-- C1: for every listing with `N` records and every integer `n`,
`change_page n` succeeds iff `0 ≤ n` and (`N = 0` or `n * 3 < N`);
on success the current page index becomes `n` and everything else is
unchanged, and on rejection the whole session state is unchanged and a
warning message is produced. -/
theorem change_page_spec (s : AppState) (n : Int) :
    ((change_page s n).2 = none ↔
      0 ≤ n ∧ (s.wallpaper_data.length = 0 ∨ n * 3 < (s.wallpaper_data.length : Int))) ∧
    ((change_page s n).2 = none →
      ((change_page s n).1.current_page : Int) = n ∧
      (change_page s n).1.wallpaper_data = s.wallpaper_data ∧
      (change_page s n).1.download_path = s.download_path ∧
      (change_page s n).1.source = s.source) ∧
    ((change_page s n).2 ≠ none → (change_page s n).1 = s) := by
  by_cases h1 : n < 0
  · have e : change_page s n = (s, some "已经是第一页了！") := by
      unfold change_page; rw [if_pos h1]
    rw [e]
    refine ⟨⟨fun hc => by simp at hc, fun ⟨hn, _⟩ => absurd h1 (by omega)⟩,
      fun hc => by simp at hc, fun _ => rfl⟩
  · by_cases h2 : n * 3 ≥ (s.wallpaper_data.length : Int) ∧ s.wallpaper_data.length > 0
    · have e : change_page s n = (s, some "没有更多壁纸了！") := by
        unfold change_page; rw [if_neg h1, if_pos h2]
      rw [e]
      refine ⟨⟨fun hc => by simp at hc, fun ⟨hn, hN⟩ => ?_⟩,
        fun hc => by simp at hc, fun _ => rfl⟩
      rcases hN with h | h
      · exact absurd h2.2 (by omega)
      · exact absurd h2.1 (by omega)
    · have e : change_page s n = ({ s with current_page := n.toNat }, none) := by
        unfold change_page; rw [if_neg h1, if_neg h2]
      rw [e]
      refine ⟨⟨fun _ => ⟨by omega, ?_⟩, fun _ => rfl⟩,
        fun _ => ⟨?_, rfl, rfl, rfl⟩, fun hc => absurd rfl hc⟩
      · rcases Decidable.not_and_iff_or_not.mp h2 with h | h
        · exact Or.inr (by omega)
        · exact Or.inl (by omega)
      · simpa using Int.toNat_of_nonneg (by omega)

/-- Witness for C1 at a listing of 5 records and `n = 1`. -/
theorem change_page_spec_witness :
    (change_page ⟨0, [⟨some "a", none, none, some "u"⟩, ⟨some "b", none, none, some "u"⟩,
        ⟨some "c", none, none, some "u"⟩, ⟨some "d", none, none, some "u"⟩,
        ⟨some "e", none, none, some "u"⟩], "p", "Artand"⟩ 1).2 = none ∧
    (change_page ⟨0, [⟨some "a", none, none, some "u"⟩, ⟨some "b", none, none, some "u"⟩,
        ⟨some "c", none, none, some "u"⟩, ⟨some "d", none, none, some "u"⟩,
        ⟨some "e", none, none, some "u"⟩], "p", "Artand"⟩ 1).1.current_page = 1 := by
  have h := change_page_spec ⟨0, [⟨some "a", none, none, some "u"⟩,
    ⟨some "b", none, none, some "u"⟩, ⟨some "c", none, none, some "u"⟩,
    ⟨some "d", none, none, some "u"⟩, ⟨some "e", none, none, some "u"⟩], "p", "Artand"⟩ 1
  have hs := h.1.mpr ⟨by norm_num, Or.inr (by norm_num)⟩
  exact ⟨hs, by exact_mod_cast (h.2.1 hs).1⟩

/-- C2: for every listing and page satisfying the navigation
precondition, the rendered window is the slice of the listing starting
at `page * 3` and contains exactly `min 3 (N - page * 3)` records, and
every slot whose index reaches past the end of the listing is left
empty (`"无壁纸"` / `"无数据"`). -/
theorem update_ui_window_spec (data : List Record) (page : Nat)
    (_h : data.length = 0 ∨ page * 3 < data.length) :
    currentWindow data page = (data.drop (page * 3)).take 3 ∧
    (currentWindow data page).length = min 3 (data.length - page * 3) ∧
    ∀ i, i < 3 → data.length ≤ page * 3 + i →
      update_ui_slot data page false i = .noWallpaper ∨
      update_ui_slot data page false i = .noData := by
  refine ⟨currentWindow_eq_drop_take data page, currentWindow_length data page, ?_⟩
  intro i _ hpast
  unfold update_ui_slot
  by_cases he : data.isEmpty
  · simp [he]
  · rw [List.getElem?_eq_none hpast]
    simp [he]

/-- Witness for C2: listing of 5 records at page 1 gives the 2-record
window `records[3:5]` and an empty third slot. -/
theorem update_ui_window_spec_witness :
    (currentWindow [⟨some "a", none, none, some "u"⟩, ⟨some "b", none, none, some "u"⟩,
        ⟨some "c", none, none, some "u"⟩, ⟨some "d", none, none, some "u"⟩,
        ⟨some "e", none, none, some "u"⟩] 1).length = 2 ∧
    (update_ui_slot [⟨some "a", none, none, some "u"⟩, ⟨some "b", none, none, some "u"⟩,
        ⟨some "c", none, none, some "u"⟩, ⟨some "d", none, none, some "u"⟩,
        ⟨some "e", none, none, some "u"⟩] 1 false 2 = .noWallpaper ∨
     update_ui_slot [⟨some "a", none, none, some "u"⟩, ⟨some "b", none, none, some "u"⟩,
        ⟨some "c", none, none, some "u"⟩, ⟨some "d", none, none, some "u"⟩,
        ⟨some "e", none, none, some "u"⟩] 1 false 2 = .noData) := by
  have h := update_ui_window_spec [⟨some "a", none, none, some "u"⟩,
    ⟨some "b", none, none, some "u"⟩, ⟨some "c", none, none, some "u"⟩,
    ⟨some "d", none, none, some "u"⟩, ⟨some "e", none, none, some "u"⟩] 1 (by decide)
  exact ⟨by rw [h.2.1]; decide, h.2.2 2 (by decide) (by decide)⟩

/-- C6: every listing-fetch error outcome — transport/timeout failure,
server-reported failure code (or missing `data` array), or invalid JSON
body — clears the in-memory listing to `[]` and surfaces a blocking
notification; `load_wallpapers` is total, so no error is fatal to the
process. -/
theorem load_wallpapers_error_clears (s : AppState) (resp : ApiResponse)
    (h : respFailed resp = true) :
    (load_wallpapers s resp).1.wallpaper_data = [] ∧
    ((load_wallpapers s resp).2).isSome = true := by
  cases resp with
  | transportError e => exact ⟨rfl, rfl⟩
  | invalidJson => exact ⟨rfl, rfl⟩
  | json env =>
    have hko : envelopeOk env = false := by
      simpa [respFailed] using h
    simp [load_wallpapers, hko]

/-- Witness for C6: a server-reported failure code clears the listing
and shows a dialog. -/
theorem load_wallpapers_error_clears_witness :
    (load_wallpapers ⟨0, [⟨some "a", none, none, some "u"⟩], "p", "Artand"⟩
        (.json ⟨some 1, some "bad", some []⟩)).1.wallpaper_data = [] ∧
    ((load_wallpapers ⟨0, [⟨some "a", none, none, some "u"⟩], "p", "Artand"⟩
        (.json ⟨some 1, some "bad", some []⟩)).2).isSome = true :=
  load_wallpapers_error_clears _ _ (by decide)

/-- C8: a source change (`sort_changed`) always leaves the current page
index at 0 — it is reset before the refetch is issued and no branch of
`load_wallpapers` touches it — so a new listing is always first viewed
at page 0. -/
theorem sort_changed_resets_page (s : AppState) (resp : ApiResponse) :
    (sort_changed s resp).1.current_page = 0 := by
  cases resp with
  | transportError e => rfl
  | invalidJson => rfl
  | json env =>
    by_cases hko : envelopeOk env = true
    · simp [sort_changed, load_wallpapers, hko]
    · simp [sort_changed, load_wallpapers, hko]

/-- C9: a thumbnail fetch failure reported for an in-range slot `i`
rewrites only the label of slot `i`; every other slot and the whole session
state are unchanged. -/
theorem image_error_frame (labels : List SlotView) (s : AppState) (i : Nat) (msg : String)
    (hlen : labels.length = 3) (hi : i < 3) :
    ((image_error labels s i msg).1)[i]? =
      some (.failed ("加载失败: " ++ msg.take 20 ++ "...")) ∧
    (∀ j, j ≠ i → ((image_error labels s i msg).1)[j]? = labels[j]?) ∧
    (image_error labels s i msg).2 = s ∧
    ((image_error labels s i msg).1).length = labels.length := by
  have hi' : i < labels.length := by omega
  unfold image_error
  rw [if_pos hi']
  refine ⟨?_, fun j hj => ?_, rfl, by simp⟩
  · exact List.getElem?_set_eq_of_lt _ hi'
  · exact List.getElem?_set_ne (fun he => hj he.symm)

/-- Witness for C9 at slot 1 of a three-slot label row. -/
theorem image_error_frame_witness :
    ((image_error [.loading "u0", .loading "u1", .loading "u2"]
        ⟨0, [], "p", "Artand"⟩ 1 "timeout").1)[1]? =
      some (.failed ("加载失败: " ++ "timeout".take 20 ++ "...")) ∧
    ((image_error [.loading "u0", .loading "u1", .loading "u2"]
        ⟨0, [], "p", "Artand"⟩ 1 "timeout").1)[0]? = some (.loading "u0") ∧
    (image_error [.loading "u0", .loading "u1", .loading "u2"]
        ⟨0, [], "p", "Artand"⟩ 1 "timeout").2 = ⟨0, [], "p", "Artand"⟩ := by
  have h := image_error_frame [.loading "u0", .loading "u1", .loading "u2"]
    ⟨0, [], "p", "Artand"⟩ 1 "timeout" (by decide) (by decide)
  exact ⟨h.1, by rw [h.2.1 0 (by decide)]; rfl, h.2.2.1⟩

/-- C10: every listing-fetch error path leaves the current page index
(and the download path and source) at its prior value and only clears
the listing, so a failed refetch in a state with a nonzero page index
yields an empty listing together with that nonzero page index. -/
theorem load_wallpapers_error_preserves_page (s : AppState) (resp : ApiResponse)
    (h : respFailed resp = true) :
    (load_wallpapers s resp).1.current_page = s.current_page ∧
    (load_wallpapers s resp).1.wallpaper_data = [] ∧
    (load_wallpapers s resp).1.download_path = s.download_path ∧
    (load_wallpapers s resp).1.source = s.source := by
  cases resp with
  | transportError e => exact ⟨rfl, rfl, rfl, rfl⟩
  | invalidJson => exact ⟨rfl, rfl, rfl, rfl⟩
  | json env =>
    have hko : envelopeOk env = false := by
      simpa [respFailed] using h
    simp [load_wallpapers, hko]

/-- Witness for C10: a failed refetch at page 5 leaves the session with
an empty listing and page index 5. -/
theorem load_wallpapers_error_preserves_page_witness :
    (load_wallpapers ⟨5, [⟨some "a", none, none, some "u"⟩], "p", "Artand"⟩
        .invalidJson).1.current_page = 5 ∧
    (load_wallpapers ⟨5, [⟨some "a", none, none, some "u"⟩], "p", "Artand"⟩
        .invalidJson).1.wallpaper_data = [] := by
  have h := load_wallpapers_error_preserves_page
    ⟨5, [⟨some "a", none, none, some "u"⟩], "p", "Artand"⟩ .invalidJson (by decide)
  exact ⟨h.1, h.2.1⟩

/-- C7: in every reachable session state with a non-empty listing, the
window start `current_page * 3` is strictly below the listing length;
the invariant is preserved by every operation (initial fetch, source
change with its refetch and error paths, page navigation, directory
choice), and on a non-empty listing any navigation to a page whose
window would be empty is rejected with a warning and no state change. -/
theorem reachable_page_invariant (s : AppState) (h : Reachable s) :
    pageInv s ∧
    ∀ n : Int, s.wallpaper_data ≠ [] → n * 3 ≥ (s.wallpaper_data.length : Int) →
      change_page s n = (s, some "没有更多壁纸了！") := by
  refine ⟨?_, ?_⟩
  · induction h with
    | init path src resp => exact pageInv_load_wallpapers _ resp rfl
    | step s' e _ ih => exact pageInv_step s' e ih
  · intro n hne hbig
    have hlen : 0 < s.wallpaper_data.length := List.length_pos.mpr hne
    have h1 : ¬ n < 0 := by omega
    unfold change_page
    rw [if_neg h1, if_pos ⟨hbig, hlen⟩]

/-- Witness for C7 at the state reached by a successful initial fetch
of a one-record listing: the invariant holds there and `change_page 1`
is rejected. -/
theorem reachable_page_invariant_witness :
    pageInv (initState "p" "Artand"
      (.json ⟨some 0, none, some [⟨some "a", none, none, some "u"⟩]⟩)) ∧
    change_page (initState "p" "Artand"
        (.json ⟨some 0, none, some [⟨some "a", none, none, some "u"⟩]⟩)) 1 =
      (initState "p" "Artand"
        (.json ⟨some 0, none, some [⟨some "a", none, none, some "u"⟩]⟩),
       some "没有更多壁纸了！") := by
  have h := reachable_page_invariant _
    (Reachable.init "p" "Artand"
      (.json ⟨some 0, none, some [⟨some "a", none, none, some "u"⟩]⟩))
  exact ⟨h.1, h.2 1 (by decide) (by decide)⟩

/-- Counterexample to C5: `load_wallpapers` assigns the decoded `data`
array to the listing verbatim (line 179), so a record lacking a URL is
NOT skipped when the listing is built — it ends up in the stored
listing. -/
theorem load_wallpapers_stores_missing_url :
    (load_wallpapers ⟨0, [], "p", "Artand"⟩
        (.json ⟨some 0, none, some [⟨some "1", none, none, none⟩]⟩)).1.wallpaper_data =
      [⟨some "1", none, none, none⟩] ∧
    (⟨some "1", none, none, none⟩ : Record).url = none :=
  ⟨rfl, rfl⟩

/-- C5 (amended): on a successful fetch the decoded `data` array is
stored verbatim; a stored record whose URL is missing is skipped
per-slot at render time (its slot shows `"URL无效"`), and the `N/A`
placeholder for missing author/description is substituted at display
time only. -/
theorem load_wallpapers_stores_verbatim (s : AppState) (env : Envelope) (d : List Record)
    (hc : env.code = some 0) (hd : env.data = some d) :
    (load_wallpapers s (.json env)).1.wallpaper_data = d ∧
    (∀ page i w, i < 3 → d[page * 3 + i]? = some w → truthy w.url = false →
      update_ui_slot d page false i = .invalidUrl) ∧
    (∀ page w, d[page * 3]? = some w →
      metadataView d page = some (w.id.getD "N/A", w.author.getD "N/A", w.desc.getD "N/A")) := by
  have hok : envelopeOk env = true := by simp [envelopeOk, hc, hd]
  refine ⟨?_, ?_, ?_⟩
  · simp [load_wallpapers, hok, hd]
  · intro page i w _ hw hurl
    have hne : d.isEmpty = false := by
      rcases hdd : d with _ | _
      · rw [hdd] at hw; simp at hw
      · rfl
    unfold update_ui_slot
    rw [hw]
    simp [hne, hurl]
  · intro page w hw
    unfold metadataView
    rw [hw]

/-- Witness for C5 (amended): a one-record listing whose record lacks
`url`, `author` and `desc`. -/
theorem load_wallpapers_stores_verbatim_witness :
    (load_wallpapers ⟨0, [], "p", "Artand"⟩
        (.json ⟨some 0, none, some [⟨some "1", none, none, none⟩]⟩)).1.wallpaper_data =
      [⟨some "1", none, none, none⟩] ∧
    update_ui_slot [⟨some "1", none, none, none⟩] 0 false 0 = .invalidUrl ∧
    metadataView [⟨some "1", none, none, none⟩] 0 = some ("1", "N/A", "N/A") := by
  have h := load_wallpapers_stores_verbatim ⟨0, [], "p", "Artand"⟩
    ⟨some 0, none, some [⟨some "1", none, none, none⟩]⟩
    [⟨some "1", none, none, none⟩] rfl rfl
  exact ⟨h.1, h.2.1 0 0 ⟨some "1", none, none, none⟩ (by decide) rfl (by decide),
    h.2.2 0 ⟨some "1", none, none, none⟩ rfl⟩

/-- C3: on a window of exactly three records, each with a truthy `id`
and `url`, with all fetches succeeding and a writable directory (all
writes succeed), `start_download` completes with a success count of 3,
adds exactly the three files `{directory}/{id}.jpg` to the filesystem —
overwriting (shadowing) any prior entry of the same name and leaving
the lookup of every other name unchanged — and reports success to the user. -/
theorem start_download_three_valid
    (s : AppState) (fetch : FetchOracle) (writeOk : String → Bool) (fs : Fs)
    (w0 w1 w2 : Record) (b0 b1 b2 : List Nat)
    (h0 : s.wallpaper_data[s.current_page * 3]? = some w0)
    (h1 : s.wallpaper_data[s.current_page * 3 + 1]? = some w1)
    (h2 : s.wallpaper_data[s.current_page * 3 + 2]? = some w2)
    (ht0 : truthy w0.url = true ∧ truthy w0.id = true)
    (ht1 : truthy w1.url = true ∧ truthy w1.id = true)
    (ht2 : truthy w2.url = true ∧ truthy w2.id = true)
    (hf0 : fetch (w0.url.getD "") = .ok b0)
    (hf1 : fetch (w1.url.getD "") = .ok b1)
    (hf2 : fetch (w2.url.getD "") = .ok b2)
    (hw0 : writeOk (targetFile s.download_path w0) = true)
    (hw1 : writeOk (targetFile s.download_path w1) = true)
    (hw2 : writeOk (targetFile s.download_path w2) = true)
    (hd01 : targetFile s.download_path w0 ≠ targetFile s.download_path w1)
    (hd02 : targetFile s.download_path w0 ≠ targetFile s.download_path w2)
    (hd12 : targetFile s.download_path w1 ≠ targetFile s.download_path w2) :
    start_download s fetch writeOk fs =
      .ok ((targetFile s.download_path w2, b2) ::
           (targetFile s.download_path w1, b1) ::
           (targetFile s.download_path w0, b0) :: fs, 3,
           .success 3 s.download_path) ∧
    List.lookup (targetFile s.download_path w0)
      ((targetFile s.download_path w2, b2) :: (targetFile s.download_path w1, b1) ::
       (targetFile s.download_path w0, b0) :: fs) = some b0 ∧
    List.lookup (targetFile s.download_path w1)
      ((targetFile s.download_path w2, b2) :: (targetFile s.download_path w1, b1) ::
       (targetFile s.download_path w0, b0) :: fs) = some b1 ∧
    List.lookup (targetFile s.download_path w2)
      ((targetFile s.download_path w2, b2) :: (targetFile s.download_path w1, b1) ::
       (targetFile s.download_path w0, b0) :: fs) = some b2 ∧
    ∀ name, name ≠ targetFile s.download_path w0 →
      name ≠ targetFile s.download_path w1 → name ≠ targetFile s.download_path w2 →
      List.lookup name
        ((targetFile s.download_path w2, b2) :: (targetFile s.download_path w1, b1) ::
         (targetFile s.download_path w0, b0) :: fs) = List.lookup name fs := by
  have h0' : s.wallpaper_data[s.current_page * 3 + 0]? = some w0 := by simpa using h0
  have hnil : s.wallpaper_data.isEmpty = false := by
    rcases hdd : s.wallpaper_data with _ | _
    · rw [hdd] at h0; simp at h0
    · rfl
  have e0 := downloadOne_hit s.download_path fetch writeOk s.wallpaper_data
    (s.current_page * 3) 0 (fs, 0) w0 b0 h0' ht0.1 ht0.2 hf0 hw0
  have e1 := downloadOne_hit s.download_path fetch writeOk s.wallpaper_data
    (s.current_page * 3) 1 ((targetFile s.download_path w0, b0) :: fs, 0 + 1) w1 b1
    h1 ht1.1 ht1.2 hf1 hw1
  have e2 := downloadOne_hit s.download_path fetch writeOk s.wallpaper_data
    (s.current_page * 3) 2
    ((targetFile s.download_path w1, b1) :: (targetFile s.download_path w0, b0) :: fs, 0 + 1 + 1)
    w2 b2 h2 ht2.1 ht2.2 hf2 hw2
  refine ⟨?_, ?_, ?_, ?_, ?_⟩
  · simp only [start_download, hnil, Bool.false_eq_true, if_false,
      show List.range 3 = [0, 1, 2] from rfl, List.foldlM_cons, List.foldlM_nil,
      e0, exceptBind_ok, e1, e2]
    rfl
  · simp [List.lookup, beq_eq_false_iff_ne.mpr hd02, beq_eq_false_iff_ne.mpr hd01]
  · simp [List.lookup, beq_eq_false_iff_ne.mpr hd12]
  · simp [List.lookup]
  · intro name hn0 hn1 hn2
    simp [List.lookup, beq_eq_false_iff_ne.mpr hn0, beq_eq_false_iff_ne.mpr hn1,
      beq_eq_false_iff_ne.mpr hn2]

/-- Witness for C3: three valid records at page 0, every fetch returns
`[9]`, and the target directory already holds an old `d/1.jpg`, which
the download overwrites. -/
theorem start_download_three_valid_witness :
    start_download ⟨0, [⟨some "1", none, none, some "u1"⟩, ⟨some "2", none, none, some "u2"⟩,
        ⟨some "3", none, none, some "u3"⟩], "d", "Artand"⟩
      (fun _ => .ok [9]) (fun _ => true) [("d/1.jpg", [0])] =
      .ok ([("d/3.jpg", [9]), ("d/2.jpg", [9]), ("d/1.jpg", [9]), ("d/1.jpg", [0])], 3,
           .success 3 "d") ∧
    List.lookup "d/1.jpg"
      [("d/3.jpg", [9]), ("d/2.jpg", [9]), ("d/1.jpg", [9]), ("d/1.jpg", [0])] = some [9] := by
  have h := start_download_three_valid
    ⟨0, [⟨some "1", none, none, some "u1"⟩, ⟨some "2", none, none, some "u2"⟩,
        ⟨some "3", none, none, some "u3"⟩], "d", "Artand"⟩
    (fun _ => .ok [9]) (fun _ => true) [("d/1.jpg", [0])]
    ⟨some "1", none, none, some "u1"⟩ ⟨some "2", none, none, some "u2"⟩
    ⟨some "3", none, none, some "u3"⟩ [9] [9] [9]
    rfl rfl rfl ⟨rfl, rfl⟩ ⟨rfl, rfl⟩ ⟨rfl, rfl⟩ rfl rfl rfl rfl rfl rfl
    (by decide) (by decide) (by decide)
  exact ⟨h.1, h.2.1⟩

/-- Counterexample to C4: `start_download` catches only
`requests.exceptions.RequestException` (line 296), so an `OSError` from
`open`/`write` (lines 293-294) propagates: with two valid records and a
filesystem on which every write fails, the write failure on the first
record aborts the whole operation — the second record is never
attempted and no success count is reported. -/
theorem start_download_write_failure_aborts :
    start_download
      ⟨0, [⟨some "1", none, none, some "http://x/1.jpg"⟩,
           ⟨some "2", none, none, some "http://x/2.jpg"⟩], "d", "Artand"⟩
      (fun _ => .ok [7]) (fun _ => false) [] =
      .error "OSError: d/1.jpg" := by
  rfl

/-- C4 (amended): a per-record fetch failure is logged and skipped and
a record lacking a truthy URL or id is skipped without raising, neither
aborting the remaining records — but a filesystem write failure raises
an uncaught exception that aborts the rest of the window.  When every
write succeeds, the operation completes with the count of successful
fetches among the valid records of the window. -/
theorem start_download_completes_when_writes_ok
    (s : AppState) (fetch : FetchOracle) (writeOk : String → Bool) (fs : Fs)
    (hne : s.wallpaper_data ≠ [])
    (hw : ∀ f, writeOk f = true) :
    ∃ fs', start_download s fetch writeOk fs =
      .ok (fs', successCount s.wallpaper_data (s.current_page * 3) fetch,
        if successCount s.wallpaper_data (s.current_page * 3) fetch > 0
        then .success (successCount s.wallpaper_data (s.current_page * 3) fetch) s.download_path
        else .failure) := by
  have hnil : s.wallpaper_data.isEmpty = false := by simp [List.isEmpty_iff, hne]
  obtain ⟨g1, e0⟩ := downloadOne_completes s.download_path fetch writeOk s.wallpaper_data
    (s.current_page * 3) 0 (fs, 0) hw
  obtain ⟨g2, e1⟩ := downloadOne_completes s.download_path fetch writeOk s.wallpaper_data
    (s.current_page * 3) 1
    (g1, if slotHit s.wallpaper_data (s.current_page * 3) fetch 0 then 1 else 0) hw
  obtain ⟨g3, e2⟩ := downloadOne_completes s.download_path fetch writeOk s.wallpaper_data
    (s.current_page * 3) 2
    (g2, (if slotHit s.wallpaper_data (s.current_page * 3) fetch 0 then 1 else 0) +
         (if slotHit s.wallpaper_data (s.current_page * 3) fetch 1 then 1 else 0)) hw
  refine ⟨g3, ?_⟩
  rw [successCount_eq]
  simp only [start_download, hnil, Bool.false_eq_true, if_false,
    show List.range 3 = [0, 1, 2] from rfl, List.foldlM_cons, List.foldlM_nil,
    e0, exceptBind_ok, Nat.zero_add, e1, e2]
  rfl

/-- Witness for C4 (amended): three records — one valid, one whose
fetch fails, one lacking a URL — with all writes succeeding: the
operation completes with count 1 and a success dialog. -/
theorem start_download_completes_when_writes_ok_witness :
    ∃ fs', start_download
      ⟨0, [⟨some "1", none, none, some "u1"⟩, ⟨some "2", none, none, some "u2"⟩,
           ⟨some "3", none, none, none⟩], "d", "Artand"⟩
      (fun u => if u = "u1" then .ok [1] else .error "boom") (fun _ => true) [] =
      .ok (fs', 1, .success 1 "d") := by
  obtain ⟨fs', e⟩ := start_download_completes_when_writes_ok
    ⟨0, [⟨some "1", none, none, some "u1"⟩, ⟨some "2", none, none, some "u2"⟩,
         ⟨some "3", none, none, none⟩], "d", "Artand"⟩
    (fun u => if u = "u1" then .ok [1] else .error "boom") (fun _ => true) []
    (by decide) (fun _ => rfl)
  exact ⟨fs', by rw [e]; rfl⟩

end Wallpaper
